import Mathlib

/-!
Verification of the build-target planning and artifact-fusion logic of the
`angle-builder` repository (`src/angle_builder/angle.py` and
`src/angle_builder/storage.py`), via a shallow embedding in Lean 4.

Modelling conventions:
* Python lists of strings become `List String`; the dict-shaped build-target
  records `{"name": ..., "gn_args": [...]}` become the structure `BuildTarget`.
* Filesystem paths inside the ANGLE checkout are modelled as segment lists
  (`List String`) relative to the checkout root `self.angle_path`; e.g.
  `os.path.join(self.angle_path, "out", "macos-x64", "libEGL.dylib")` becomes
  `["out", "macos-x64", "libEGL.dylib"]`.
* Side-effecting code (`shutil`, `os`, `subprocess.run(..., check=True)`) is
  embedded as an explicit trace of `Event`s in the order the code issues them,
  together with an interpreter `runEvents` over a success oracle that models
  the exception propagation of `check=True` (first failing call aborts the
  rest, no retry).
-/

/-- A build target as assembled by `ANGLE._generate_build_targets`:
the Python dict `{"name": ..., "gn_args": [...]}`. -/
structure BuildTarget where
  name : String
  gn_args : List String
deriving DecidableEq

/-- The `common_gn_args` list built at the start of
`ANGLE._generate_build_targets`. -/
def common_gn_args : List String :=
  [ "is_component_build=false",
    "is_debug=false",
    "angle_enable_wgpu=false",
    "mac_deployment_target=\"10.15\"" ]

/-- Models `ANGLE._generate_build_targets(output_artifact_mode)`: appends one
build-target record per matching membership test, in source order. -/
def generate_build_targets (output_artifact_mode : String) : List BuildTarget :=
  let builds : List BuildTarget := []
  let builds := if output_artifact_mode ∈ ["macos-arm64", "macos-universal"] then
    builds ++ [⟨"macos-arm64",
      common_gn_args ++ ["target_cpu=\"arm64\"", "target_os=\"mac\""]⟩]
    else builds
  let builds := if output_artifact_mode ∈ ["macos-x64", "macos-universal"] then
    builds ++ [⟨"macos-x64",
      common_gn_args ++ ["target_cpu=\"x64\"", "target_os=\"mac\""]⟩]
    else builds
  let builds := if output_artifact_mode ∈ ["iphoneos-arm64", "iphoneall-universal"] then
    builds ++ [⟨"iphoneos-arm64",
      common_gn_args ++ ["target_cpu=\"arm64\"", "target_os=\"ios\"",
        "ios_enable_code_signing=false"]⟩]
    else builds
  let builds := if output_artifact_mode ∈ ["iphonesimulator-x64", "iphoneall-universal"] then
    builds ++ [⟨"iphonesimulator-x64",
      common_gn_args ++ ["target_cpu=\"x64\"", "target_os=\"ios\"",
        "target_environment=\"simulator\"", "ios_enable_code_signing=false"]⟩]
    else builds
  let builds := if output_artifact_mode ∈ ["iphonesimulator-arm64", "iphoneall-universal"] then
    builds ++ [⟨"iphonesimulator-arm64",
      common_gn_args ++ ["target_cpu=\"arm64\"", "target_os=\"ios\"",
        "target_environment=\"simulator\"", "ios_enable_code_signing=false"]⟩]
    else builds
  builds

/-- The seven values documented for `output_artifact_mode` in
`ANGLE.build`'s docstring. -/
def sevenModes : List String :=
  [ "macos-x64", "macos-arm64", "macos-universal",
    "iphoneos-arm64", "iphonesimulator-x64", "iphonesimulator-arm64",
    "iphoneall-universal" ]

/-- The five simple (non-composite) modes. -/
def simpleModes : List String :=
  [ "macos-x64", "macos-arm64",
    "iphoneos-arm64", "iphonesimulator-x64", "iphonesimulator-arm64" ]

/-- One externally visible side effect of the orchestration code, in the order
the Python code issues it.  Paths are segment lists relative to
`self.angle_path`.  The `subprocess.run(..., check=True)` calls (lipo,
install_name_tool, xcodebuild, plutil) appear with dedicated constructors
carrying their arguments; see the producing definitions. -/
inductive Event where
  /-- Models `self.clone_and_checkout()` -/
  | cloneAndCheckout
  /-- Models `self.bootstrap()` -/
  | bootstrap
  /-- Models `self.sync()` -/
  | sync
  /-- Models `self._gn_gen(build_target)`: `gn gen out/<name> --args=...` -/
  | gnGen (targetName : String) (gnArgs : List String)
  /-- Models `self._autoninja_build(build_target)`: `autoninja -C out/<name> libEGL libGLESv2` -/
  | autoninja (targetName : String)
  /-- Models `self._patch_frameworks_plist(framework_path)`:
  `plutil -replace CFBundleShortVersionString -string "1.0" <path>/Info.plist` -/
  | patchPlist (frameworkPath : List String)
  /-- Models `shutil.rmtree(path)` (raises if the path is absent) -/
  | rmtree (path : List String)
  /-- Models `shutil.rmtree(path, ignore_errors=True)` -/
  | rmtreeIgnoreErrors (path : List String)
  /-- Models `os.makedirs(path)` -/
  | makedirs (path : List String)
  /-- Models `shutil.copytree(src, dst)` -/
  | copytree (src dst : List String)
  /-- Models `os.remove(path)` -/
  | removeFile (path : List String)
  /-- Models `subprocess.run(["lipo", "-create", *inputs, "-output", output], check=True)` -/
  | lipoCreate (inputs : List (List String)) (output : List String)
  /-- Models `subprocess.run(["install_name_tool", "-id", newId, path], check=True)` -/
  | installNameToolId (newId : String) (path : List String)
  /-- Models `subprocess.run(["xcodebuild", "-create-xcframework", ("-framework", f)*, "-output", output], check=True)` -/
  | xcodebuildCreateXCFramework (frameworks : List (List String)) (output : List String)
  /-- the `shutil.make_archive` packaging step at the end of `build`, with the
  artifact list `libs` it stages -/
  | makeArchive (mode : String) (libs : List (List String))
deriving DecidableEq

/-- Runs a trace of events against a success oracle `ok`, modelling Python
exception propagation: the first event on which `ok` is `false` raises, and is
returned as the error; nothing after it executes.  (Events that cannot raise
in the source — e.g. `rmtreeIgnoreErrors` — are simply run with oracles that
hold `true` on them.) -/
def runEvents (ok : Event → Bool) : List Event → Except Event Unit
  | [] => .ok ()
  | e :: es => if ok e then runEvents ok es else .error e

/-- Scratch folder `out/macos-universal` recreated by `_create_macos_dylibs`. -/
def macosUniversalFolder : List String := ["out", "macos-universal"]

/-- The event trace of `ANGLE._create_macos_dylibs(output_artifact_mode)`.
`universalExists` is the value of
`os.path.exists(macos_universal_folder)` at entry. -/
def create_macos_dylibs_events (output_artifact_mode : String)
    (universalExists : Bool) : List Event :=
  if output_artifact_mode = "macos-universal" then
    (if universalExists then [Event.rmtree macosUniversalFolder] else [])
    ++ [Event.makedirs macosUniversalFolder,
        Event.lipoCreate
          [["out", "macos-x64", "libEGL.dylib"],
           ["out", "macos-arm64", "libEGL.dylib"]]
          ["out", "macos-universal", "libEGL.dylib"],
        Event.lipoCreate
          [["out", "macos-x64", "libGLESv2.dylib"],
           ["out", "macos-arm64", "libGLESv2.dylib"]]
          ["out", "macos-universal", "libGLESv2.dylib"],
        Event.installNameToolId "@rpath/libEGL.dylib"
          ["out", "macos-universal", "libEGL.dylib"],
        Event.installNameToolId "@rpath/libGLESv2.dylib"
          ["out", "macos-universal", "libGLESv2.dylib"]]
  else []

/-- The return value of `ANGLE._create_macos_dylibs`:
`[libEGL_dylib_path, libGLESv2_dylib_path]`, computed unconditionally at the
top of the function from `output_artifact_mode`. -/
def create_macos_dylibs_ret (output_artifact_mode : String) : List (List String) :=
  [["out", output_artifact_mode, "libEGL.dylib"],
   ["out", output_artifact_mode, "libGLESv2.dylib"]]

/-- The event trace of `ANGLE._patch_frameworks_plist(framework_path)`. -/
def patch_frameworks_plist_events (frameworkPath : List String) : List Event :=
  [Event.patchPlist frameworkPath]

/-- The event trace of `ANGLE._create_iphoneos_frameworks(output_artifact_mode)`. -/
def create_iphoneos_frameworks_events (output_artifact_mode : String) : List Event :=
  if output_artifact_mode = "iphoneall-universal" then
    [Event.rmtreeIgnoreErrors ["out", "iphoneos-arm64", "iphoneall-universal"],
     Event.makedirs ["out", "iphoneos-arm64", "iphoneall-universal"],
     Event.rmtreeIgnoreErrors ["out", "iphonesimulator-universal"],
     Event.makedirs ["out", "iphonesimulator-universal"],
     Event.copytree ["out", "iphonesimulator-x64", "libEGL.framework"]
       ["out", "iphonesimulator-universal", "libEGL.framework"],
     Event.removeFile ["out", "iphonesimulator-universal", "libEGL.framework", "libEGL"],
     Event.copytree ["out", "iphonesimulator-x64", "libGLESv2.framework"]
       ["out", "iphonesimulator-universal", "libGLESv2.framework"],
     Event.removeFile
       ["out", "iphonesimulator-universal", "libGLESv2.framework", "libGLESv2"],
     Event.lipoCreate
       [["out", "iphonesimulator-x64", "libEGL.framework", "libEGL"],
        ["out", "iphonesimulator-arm64", "libEGL.framework", "libEGL"]]
       ["out", "iphonesimulator-universal", "libEGL.framework", "libEGL"],
     Event.lipoCreate
       [["out", "iphonesimulator-x64", "libGLESv2.framework", "libGLESv2"],
        ["out", "iphonesimulator-arm64", "libGLESv2.framework", "libGLESv2"]]
       ["out", "iphonesimulator-universal", "libGLESv2.framework", "libGLESv2"],
     Event.xcodebuildCreateXCFramework
       [["out", "iphoneos-arm64", "libEGL.framework"],
        ["out", "iphonesimulator-universal", "libEGL.framework"]]
       ["out", "iphoneall-universal", "libEGL.xcframework"],
     Event.xcodebuildCreateXCFramework
       [["out", "iphoneos-arm64", "libGLESv2.framework"],
        ["out", "iphonesimulator-universal", "libGLESv2.framework"]]
       ["out", "iphoneall-universal", "libGLESv2.xcframework"]]
  else []

/-- The return value of `ANGLE._create_iphoneos_frameworks`:
`[libEGL_output_path, libGLESv2_output_path]` with extension `xcframework`
for `iphoneall-universal`, else `framework`. -/
def create_iphoneos_frameworks_ret (output_artifact_mode : String) : List (List String) :=
  let output_extension :=
    if output_artifact_mode = "iphoneall-universal" then "xcframework" else "framework"
  [["out", output_artifact_mode, "libEGL." ++ output_extension],
   ["out", output_artifact_mode, "libGLESv2." ++ output_extension]]

/-- Models Python `str.startswith`: `pre` is a prefix of `s`. -/
def pyStartswith (s pre : String) : Bool :=
  pre.data.isPrefixOf s.data

/-- The runtime error Python raises at the end of `ANGLE.build` when the
local variable `libs` was never assigned (neither `startswith` branch of the
fusion dispatch matched): `UnboundLocalError` on `for lib in libs`. -/
inductive PyError where
  | unboundLocalLibs
deriving DecidableEq

/-- The outcome of one `ANGLE.build` invocation: the trace of events it
issued, and the error it raised (if any) with everything after the raise
not executed. -/
structure BuildOutcome where
  events : List Event
  error : Option PyError
deriving DecidableEq

/-- Models `ANGLE.build(output_artifact_mode, output_folder)` as an event
trace (assuming the external commands succeed): acquisition
(`clone_and_checkout`, `bootstrap`, `sync`), then one `gn gen` per planned
target, then one `autoninja` per planned target immediately followed — for
targets whose name starts with `"iphone"` — by the two Info.plist patches,
then the fusion branch selected by `startswith` on the mode, then the
archive-packaging stage.  When neither `startswith` test matches, `libs` is
never assigned and the archive stage raises `UnboundLocalError`.
`universalExists` is the value `os.path.exists` returns for the
`out/macos-universal` scratch folder inside `_create_macos_dylibs`. -/
def build (output_artifact_mode : String) (universalExists : Bool) : BuildOutcome :=
  let build_targets := generate_build_targets output_artifact_mode
  let events := [Event.cloneAndCheckout, Event.bootstrap, Event.sync]
  let events := events ++ build_targets.map (fun t => Event.gnGen t.name t.gn_args)
  let events := events ++ build_targets.flatMap (fun t =>
    [Event.autoninja t.name]
    ++ (if pyStartswith t.name "iphone" then
          patch_frameworks_plist_events ["out", t.name, "libEGL.framework"]
          ++ patch_frameworks_plist_events ["out", t.name, "libGLESv2.framework"]
        else []))
  if pyStartswith output_artifact_mode "macos" then
    let events := events ++ create_macos_dylibs_events output_artifact_mode universalExists
    let libs := create_macos_dylibs_ret output_artifact_mode
    ⟨events ++ [Event.makeArchive output_artifact_mode libs], none⟩
  else if pyStartswith output_artifact_mode "iphone" then
    let events := events ++ create_iphoneos_frameworks_events output_artifact_mode
    let libs := create_iphoneos_frameworks_ret output_artifact_mode
    ⟨events ++ [Event.makeArchive output_artifact_mode libs], none⟩
  else
    ⟨events, some PyError.unboundLocalLibs⟩

/-- Models Python `str.replace(old, new)` for a single-character `old` (the
only shape the repository uses): every occurrence of the character `old` in
`s` is replaced by the string `new`. -/
def pyReplaceChar (old : Char) (new : String) (s : String) : String :=
  String.mk ((s.data.map (fun c => if c = old then new.data else [c])).flatten)

/-- Models the `ANGLE.underlined_branch` property:
`self.branch.replace(".", "_").replace("/", "__")`. -/
def underlined_branch (branch : String) : String :=
  pyReplaceChar '/' "__" (pyReplaceChar '.' "_" branch)

/-- Models the `ANGLE.angle_path` property:
`os.path.join(self.storage_manager.folder_path, f"angle-{self.underlined_branch}")`
(POSIX join of a folder path with a relative name). -/
def angle_path (storage_folder_path : String) (branch : String) : String :=
  storage_folder_path ++ "/" ++ ("angle-" ++ underlined_branch branch)

/-- Errors `os.rmdir` can raise. -/
inductive OSErr where
  /-- OSError / ENOTEMPTY: the directory is not empty. -/
  | directoryNotEmpty
  /-- FileNotFoundError: the path does not exist. -/
  | fileNotFound
deriving DecidableEq

/-- Abstract state of the storage folder managed by `StorageFolderManager`:
absent, or present with a list of directory entries. -/
inductive FolderState where
  | absent
  | present (entries : List String)
deriving DecidableEq

/-- Models `os.path.exists` on the storage folder. -/
def pathExists : FolderState → Bool
  | .absent => false
  | .present _ => true

/-- Models `os.rmdir`: removes a directory only if it is empty; raises
FileNotFoundError on an absent path and OSError (directory not empty) on a
non-empty one, leaving the state unchanged. -/
def osRmdir : FolderState → Except OSErr FolderState
  | .absent => .error .fileNotFound
  | .present [] => .ok .absent
  | .present (_ :: _) => .error .directoryNotEmpty

/-- Models `StorageFolderManager.delete_folder`: if the folder exists it calls
`os.rmdir(self.folder_path)` (an exception propagates to the caller, with the
folder state unchanged); otherwise it only logs.  Returns the resulting
folder state and the raised error, if any. -/
def delete_folder (st : FolderState) : FolderState × Option OSErr :=
  if pathExists st then
    match osRmdir st with
    | .ok st2 => (st2, none)
    | .error e => (st, some e)
  else (st, none)

/-- Models `StorageFolderManager.ensure_folder`: creates the folder when
absent (`os.makedirs`), otherwise only logs. -/
def ensure_folder (st : FolderState) : FolderState :=
  if pathExists st then st else .present []

/-- The architecture a simple build-target name designates (the part after
the dash); helper for stating C4. -/
def cpuOf (name : String) : String :=
  if name ∈ ["macos-x64", "iphonesimulator-x64"] then "x64" else "arm64"

/-- The gn platform a simple build-target name designates: "mac" for macOS
targets, "ios" for iOS targets; helper for stating C4. -/
def platformOf (name : String) : String :=
  if pyStartswith name "macos" then "mac" else "ios"

/-- The lipo merge of the two `libEGL.dylib` variants issued by
`_create_macos_dylibs` for macos-universal; helper for stating C5. -/
def eglLipoMerge : Event :=
  Event.lipoCreate
    [["out", "macos-x64", "libEGL.dylib"],
     ["out", "macos-arm64", "libEGL.dylib"]]
    ["out", "macos-universal", "libEGL.dylib"]

/-- The lipo merge of the two `libGLESv2.dylib` variants issued by
`_create_macos_dylibs` for macos-universal; helper for stating C5. -/
def glesLipoMerge : Event :=
  Event.lipoCreate
    [["out", "macos-x64", "libGLESv2.dylib"],
     ["out", "macos-arm64", "libGLESv2.dylib"]]
    ["out", "macos-universal", "libGLESv2.dylib"]

/-- A success oracle that fails exactly on the libEGL lipo merge; helper
for the C5 witness. -/
def failEglLipoOracle : Event → Bool :=
  fun e => decide (e ≠ eglLipoMerge)


/-! ## Helper lemmas shared between claims -/

/-- For any string outside the seven enumerated modes, no membership test in
`_generate_build_targets` matches, so the returned list is empty. -/
theorem generate_build_targets_eq_nil_of_not_mem (s : String)
    (h : s ∉ sevenModes) : generate_build_targets s = [] := by
  simp only [sevenModes, List.mem_cons, List.not_mem_nil, or_false, not_or] at h
  obtain ⟨h1, h2, h3, h4, h5, h6, h7⟩ := h
  simp [generate_build_targets, h1, h2, h3, h4, h5, h6, h7]

/-- Every one of the seven enumerated modes starts with `"macos"` or with
`"iphone"`. -/
theorem mem_sevenModes_startswith (m : String) (hm : m ∈ sevenModes) :
    pyStartswith m "macos" = true ∨ pyStartswith m "iphone" = true := by
  revert m
  decide

/-! ## Claims about the target planner -/

/-- C1: `plan("iphoneall-universal")` returns a sequence of exactly 3
build targets, in the order [iphoneos-arm64, iphonesimulator-x64,
iphonesimulator-arm64], which as a set is the duplicate-free union of the
three simple iOS plans, each of those single targets appearing exactly once
(build-target equality being equality of name and gn-args sequence). -/
theorem plan_iphoneall_universal_union :
    generate_build_targets "iphoneall-universal"
      = generate_build_targets "iphoneos-arm64"
        ++ generate_build_targets "iphonesimulator-x64"
        ++ generate_build_targets "iphonesimulator-arm64"
    ∧ (generate_build_targets "iphoneall-universal").length = 3
    ∧ (generate_build_targets "iphoneall-universal").map BuildTarget.name
        = ["iphoneos-arm64", "iphonesimulator-x64", "iphonesimulator-arm64"]
    ∧ (generate_build_targets "iphoneall-universal").Nodup
    ∧ (∀ t ∈ generate_build_targets "iphoneos-arm64",
        (generate_build_targets "iphoneall-universal").count t = 1)
    ∧ (∀ t ∈ generate_build_targets "iphonesimulator-x64",
        (generate_build_targets "iphoneall-universal").count t = 1)
    ∧ (∀ t ∈ generate_build_targets "iphonesimulator-arm64",
        (generate_build_targets "iphoneall-universal").count t = 1) := by
  decide

/-- C2: `plan("macos-universal")` returns a sequence of exactly 2 build
targets, equal as a set to the duplicate-free union of
`plan("macos-arm64")` and `plan("macos-x64")`, arm64 first, x64 second. -/
theorem plan_macos_universal_union :
    generate_build_targets "macos-universal"
      = generate_build_targets "macos-arm64" ++ generate_build_targets "macos-x64"
    ∧ (generate_build_targets "macos-universal").length = 2
    ∧ (generate_build_targets "macos-universal").map BuildTarget.name
        = ["macos-arm64", "macos-x64"]
    ∧ (generate_build_targets "macos-universal").Nodup
    ∧ (∀ t ∈ generate_build_targets "macos-arm64",
        (generate_build_targets "macos-universal").count t = 1)
    ∧ (∀ t ∈ generate_build_targets "macos-x64",
        (generate_build_targets "macos-universal").count t = 1) := by
  decide

/-- C3: for every simple mode m, `plan(m)` returns exactly one build target
and that target's name equals m. -/
theorem plan_simple_mode_single_target (m : String) (hm : m ∈ simpleModes) :
    (generate_build_targets m).length = 1
    ∧ ∀ t ∈ generate_build_targets m, t.name = m := by
  revert hm
  revert m
  decide

/-- Witness for C3 at the concrete mode "iphonesimulator-arm64". -/
theorem plan_simple_mode_single_target_witness :
    "iphonesimulator-arm64" ∈ simpleModes
    ∧ ((generate_build_targets "iphonesimulator-arm64").length = 1
       ∧ ∀ t ∈ generate_build_targets "iphonesimulator-arm64",
          t.name = "iphonesimulator-arm64") :=
  ⟨by decide, plan_simple_mode_single_target "iphonesimulator-arm64" (by decide)⟩

/-- C4: every planned target's gn-args list contains the common flags
`is_component_build=false` and `is_debug=false`, a `target_cpu` entry naming
its architecture and a `target_os` entry naming its platform; every iOS
target additionally contains `ios_enable_code_signing=false`, and the two
simulator targets additionally contain `target_environment="simulator"`. -/
theorem plan_targets_gn_args_complete (m : String) (hm : m ∈ sevenModes)
    (t : BuildTarget) (ht : t ∈ generate_build_targets m) :
    "is_component_build=false" ∈ t.gn_args
    ∧ "is_debug=false" ∈ t.gn_args
    ∧ ("target_cpu=\"" ++ cpuOf t.name ++ "\"") ∈ t.gn_args
    ∧ ("target_os=\"" ++ platformOf t.name ++ "\"") ∈ t.gn_args
    ∧ (pyStartswith t.name "iphone" = true →
        "ios_enable_code_signing=false" ∈ t.gn_args)
    ∧ (t.name ∈ ["iphonesimulator-x64", "iphonesimulator-arm64"] →
        "target_environment=\"simulator\"" ∈ t.gn_args) := by
  revert ht
  revert t
  revert hm
  revert m
  decide

/-- Witness for C4 at the concrete mode "macos-x64" and its single target. -/
theorem plan_targets_gn_args_complete_witness :
    "macos-x64" ∈ sevenModes
    ∧ (⟨"macos-x64", common_gn_args ++ ["target_cpu=\"x64\"", "target_os=\"mac\""]⟩ : BuildTarget)
        ∈ generate_build_targets "macos-x64"
    ∧ "is_component_build=false"
        ∈ (⟨"macos-x64", common_gn_args ++ ["target_cpu=\"x64\"", "target_os=\"mac\""]⟩ : BuildTarget).gn_args := by
  refine ⟨by decide, by decide, ?_⟩
  exact (plan_targets_gn_args_complete "macos-x64" (by decide) _ (by decide)).1

/-- C7: for every input string that is not one of the seven enumerated
modes, the planner returns the empty sequence rather than raising. -/
theorem plan_unknown_mode_returns_empty (s : String) (h : s ∉ sevenModes) :
    generate_build_targets s = [] :=
  generate_build_targets_eq_nil_of_not_mem s h

/-- Witness for C7 at the concrete input "windows-x64". -/
theorem plan_unknown_mode_returns_empty_witness :
    "windows-x64" ∉ sevenModes ∧ generate_build_targets "windows-x64" = [] :=
  ⟨by decide, plan_unknown_mode_returns_empty "windows-x64" (by decide)⟩

/-! ## Claims about artifact fusion and build orchestration -/

/-- C5: for macos-universal, `_create_macos_dylibs` first recreates the
scratch folder `out/macos-universal` (rmtree only when it exists, then
makedirs), then merges the x64 and arm64 variants of libEGL.dylib and
libGLESv2.dylib into fat binaries there, then rewrites each merged binary's
install id to `@rpath/<name>.dylib`, and returns the two fat dylib paths;
when a merge step fails (here: the first lipo, with the earlier filesystem
steps succeeding), the failure propagates as the fatal error of the whole
run — nothing after it executes — and the merge is issued exactly once (no
retry). -/
theorem create_macos_dylibs_universal_correct (universalExists : Bool)
    (ok : Event → Bool)
    (hRm : ok (Event.rmtree macosUniversalFolder) = true)
    (hMk : ok (Event.makedirs macosUniversalFolder) = true)
    (hFail : ok eglLipoMerge = false) :
    create_macos_dylibs_events "macos-universal" universalExists
      = (if universalExists then [Event.rmtree macosUniversalFolder] else [])
        ++ [Event.makedirs macosUniversalFolder,
            eglLipoMerge,
            glesLipoMerge,
            Event.installNameToolId "@rpath/libEGL.dylib"
              ["out", "macos-universal", "libEGL.dylib"],
            Event.installNameToolId "@rpath/libGLESv2.dylib"
              ["out", "macos-universal", "libGLESv2.dylib"]]
    ∧ create_macos_dylibs_ret "macos-universal"
        = [["out", "macos-universal", "libEGL.dylib"],
           ["out", "macos-universal", "libGLESv2.dylib"]]
    ∧ runEvents ok (create_macos_dylibs_events "macos-universal" universalExists)
        = .error eglLipoMerge
    ∧ (create_macos_dylibs_events "macos-universal" universalExists).count
        eglLipoMerge = 1
    ∧ (create_macos_dylibs_events "macos-universal" universalExists).count
        glesLipoMerge = 1 := by
  refine ⟨?_, rfl, ?_, ?_, ?_⟩
  · cases universalExists <;> rfl
  · simp only [eglLipoMerge, macosUniversalFolder] at hRm hMk hFail
    cases universalExists <;>
      simp [create_macos_dylibs_events, runEvents, macosUniversalFolder,
        eglLipoMerge, hRm, hMk, hFail]
  · cases universalExists <;> decide
  · cases universalExists <;> decide

/-- Witness for C5: with the scratch folder existing and the oracle that
fails exactly on the first lipo merge, the run aborts at that merge. -/
theorem create_macos_dylibs_universal_correct_witness :
    failEglLipoOracle (Event.rmtree macosUniversalFolder) = true
    ∧ failEglLipoOracle (Event.makedirs macosUniversalFolder) = true
    ∧ failEglLipoOracle eglLipoMerge = false
    ∧ runEvents failEglLipoOracle (create_macos_dylibs_events "macos-universal" true)
        = .error eglLipoMerge := by
  refine ⟨by decide, by decide, by decide, ?_⟩
  exact (create_macos_dylibs_universal_correct true failEglLipoOracle
    (by decide) (by decide) (by decide)).2.2.1

/-- C6: during `build`, for every planned target whose name starts with
"iphone", the Info.plist patch injecting `CFBundleShortVersionString="1.0"`
runs exactly once for each of libEGL.framework and libGLESv2.framework,
immediately after that target's `autoninja` compilation; the whole trace
ends with the fusion events followed by the archive step, and
`_create_iphoneos_frameworks` itself issues no plist patch for any
framework path (it only combines the already-patched bundles). -/
theorem build_patches_iphone_frameworks_once_after_compile
    (mode : String) (u : Bool) (t : BuildTarget)
    (ht : t ∈ generate_build_targets mode)
    (hi : pyStartswith t.name "iphone" = true) :
    ((build mode u).events.count
        (Event.patchPlist ["out", t.name, "libEGL.framework"]) = 1)
    ∧ ((build mode u).events.count
        (Event.patchPlist ["out", t.name, "libGLESv2.framework"]) = 1)
    ∧ (∃ n, ((build mode u).events.drop n).take 3
        = [Event.autoninja t.name,
           Event.patchPlist ["out", t.name, "libEGL.framework"],
           Event.patchPlist ["out", t.name, "libGLESv2.framework"]])
    ∧ (∀ p, Event.patchPlist p ∉ create_iphoneos_frameworks_events mode)
    ∧ (∃ n, (build mode u).events.drop n
        = create_iphoneos_frameworks_events mode
          ++ [Event.makeArchive mode (create_iphoneos_frameworks_ret mode)]) := by
  have hmem : mode ∈ sevenModes := by
    by_contra hno
    rw [generate_build_targets_eq_nil_of_not_mem mode hno] at ht
    simp at ht
  simp only [sevenModes, List.mem_cons, List.not_mem_nil, or_false] at hmem
  cases u <;>
    rcases hmem with rfl | rfl | rfl | rfl | rfl | rfl | rfl <;>
      fin_cases ht <;>
        first
        | exact absurd hi (by decide)
        | (refine ⟨by decide, by decide, ⟨4, by decide⟩, ?_, ⟨7, by decide⟩⟩
           intro p
           simp [create_iphoneos_frameworks_events])
        | (refine ⟨by decide, by decide, ⟨6, by decide⟩, ?_, ⟨15, by decide⟩⟩
           intro p
           simp [create_iphoneos_frameworks_events])
        | (refine ⟨by decide, by decide, ⟨9, by decide⟩, ?_, ⟨15, by decide⟩⟩
           intro p
           simp [create_iphoneos_frameworks_events])
        | (refine ⟨by decide, by decide, ⟨12, by decide⟩, ?_, ⟨15, by decide⟩⟩
           intro p
           simp [create_iphoneos_frameworks_events])

/-- Witness for C6 at mode "iphoneos-arm64" and its single planned target. -/
theorem build_patches_iphone_frameworks_once_after_compile_witness :
    (⟨"iphoneos-arm64", common_gn_args ++ ["target_cpu=\"arm64\"", "target_os=\"ios\"",
        "ios_enable_code_signing=false"]⟩ : BuildTarget)
      ∈ generate_build_targets "iphoneos-arm64"
    ∧ pyStartswith "iphoneos-arm64" "iphone" = true
    ∧ (build "iphoneos-arm64" true).events.count
        (Event.patchPlist ["out", "iphoneos-arm64", "libEGL.framework"]) = 1 := by
  refine ⟨by decide, by decide, ?_⟩
  exact (build_patches_iphone_frameworks_once_after_compile "iphoneos-arm64" true
    ⟨"iphoneos-arm64", common_gn_args ++ ["target_cpu=\"arm64\"", "target_os=\"ios\"",
      "ios_enable_code_signing=false"]⟩ (by decide) (by decide)).1

/-- C9: for every output_artifact_mode starting with neither "macos" nor
"iphone", `build` executes acquisition and an empty build loop, then
reaches the archive-packaging stage with `libs` never assigned and fails
there with an unbound-local error; no archive event is ever issued. -/
theorem build_unknown_prefix_unbound_libs (mode : String) (u : Bool)
    (h1 : pyStartswith mode "macos" = false)
    (h2 : pyStartswith mode "iphone" = false) :
    (build mode u).error = some PyError.unboundLocalLibs
    ∧ (build mode u).events = [Event.cloneAndCheckout, Event.bootstrap, Event.sync]
    ∧ ∀ m libs, Event.makeArchive m libs ∉ (build mode u).events := by
  have hplan : generate_build_targets mode = [] := by
    apply generate_build_targets_eq_nil_of_not_mem
    intro hmem
    rcases mem_sevenModes_startswith mode hmem with h | h
    · rw [h1] at h
      exact Bool.noConfusion h
    · rw [h2] at h
      exact Bool.noConfusion h
  simp [build, hplan, h1, h2]

/-- Witness for C9 at the concrete input "android-x64". -/
theorem build_unknown_prefix_unbound_libs_witness :
    pyStartswith "android-x64" "macos" = false
    ∧ pyStartswith "android-x64" "iphone" = false
    ∧ (build "android-x64" true).error = some PyError.unboundLocalLibs :=
  ⟨by decide, by decide,
   (build_unknown_prefix_unbound_libs "android-x64" true (by decide) (by decide)).1⟩

/-- C10: `StorageFolderManager.delete_folder` succeeds exactly when the
storage folder is absent or present but empty; on an existing non-empty
folder it raises OSError (directory not empty) and the folder remains
present with its entries intact, because removal uses `os.rmdir`. -/
theorem delete_folder_only_when_absent_or_empty (st : FolderState) :
    ((delete_folder st).2 = none ↔ st = .absent ∨ st = .present [])
    ∧ ∀ x xs, delete_folder (FolderState.present (x :: xs))
        = (FolderState.present (x :: xs), some OSErr.directoryNotEmpty) := by
  constructor
  · match st with
    | .absent => simp [delete_folder, pathExists]
    | .present [] => simp [delete_folder, pathExists, osRmdir]
    | .present (x :: xs) => simp [delete_folder, pathExists, osRmdir]
  · intro x xs
    rfl

/-- C8 counterexample: the branches "a.b" and "a/b" do NOT collide under
`underlined_branch` ("." is replaced by a single underscore, "/" by a
double one), so neither do their `angle_path` folder names. -/
theorem underlined_branch_dot_slash_no_collision :
    underlined_branch "a.b" = "a_b"
    ∧ underlined_branch "a/b" = "a__b"
    ∧ underlined_branch "a.b" ≠ underlined_branch "a/b"
    ∧ angle_path "/home/user/.angle-builder" "a.b"
        ≠ angle_path "/home/user/.angle-builder" "a/b" := by
  decide

/-- C8 (amended): the branch-to-path derivation is still not injective for
distinct branch strings differing only in "."/"/" placement: "a..b" and
"a/b" both normalize to the folder name suffix "a__b", so their
`angle_path`s coincide for every storage folder. -/
theorem underlined_branch_not_injective (storage : String) :
    "a..b" ≠ "a/b"
    ∧ underlined_branch "a..b" = "a__b"
    ∧ underlined_branch "a..b" = underlined_branch "a/b"
    ∧ angle_path storage "a..b" = angle_path storage "a/b" := by
  refine ⟨by decide, by decide, by decide, ?_⟩
  unfold angle_path
  rw [show underlined_branch "a..b" = underlined_branch "a/b" from by decide]
